import Mathlib

/-!
Verification of the dose model and curve sampler of `src/app.py`
(radiation-dose-vs-distance educational calculator).

The numeric code is embedded over the exact rationals `ℚ`: the Python
floats are modelled as exact real-number arithmetic, so every value is
finite by construction and the guard against division by zero is the
explicit clamp `max d (1/1000000)` mirroring `np.maximum(d_m, 1e-6)`.
-/

namespace DoseApp

/-- The epsilon floor `1e-6` used by `dose_at_distance` in `src/app.py`
(line 87: `d_m = np.maximum(d_m, 1e-6)`). -/
def epsFloor : ℚ := 1 / 1000000

/-- Embedding of `dose_at_distance(d_m, D1m, r_ref, att=1.0, op=1.0)`
from `src/app.py` lines 85-88:

    d_m = np.maximum(d_m, 1e-6)
    return D1m * (r_ref / d_m)**2 * att * op

The optional arguments keep the source defaults `att = 1.0`, `op = 1.0`. -/
def dose_at_distance (d_m D1m r_ref : ℚ) (att : ℚ := 1) (op : ℚ := 1) : ℚ :=
  let d := max d_m epsFloor
  D1m * (r_ref / d) ^ 2 * att * op

/-- Vectorized application of `dose_at_distance`: numpy broadcasts the
scalar operations elementwise over an array of distances, so an input
sequence is mapped elementwise. -/
def dose_at_distance_vec (ds : List ℚ) (D1m r_ref : ℚ)
    (att : ℚ := 1) (op : ℚ := 1) : List ℚ :=
  ds.map (fun d => dose_at_distance d D1m r_ref att op)

/-- Embedding of `np.linspace(a, b, n)` (src/app.py line 107): `n` evenly
spaced values from `a` to `b` inclusive.  For `n ≤ 1` numpy returns the
empty array (`n = 0`) or the singleton `[a]` (`n = 1`); for `n ≥ 2` the
`i`-th value is `a + (b - a) * i / (n - 1)`. -/
def linspace (a b : ℚ) (n : ℕ) : List ℚ :=
  if n ≤ 1 then (List.range n).map (fun _ => a)
  else (List.range n).map (fun (i : ℕ) => a + (b - a) * (i : ℚ) / ((n : ℚ) - 1))

/-- Model parameters collected by the UI (src/app.py lines 31-52). -/
structure ModelParams where
  referenceDose : ℚ
  referenceDistance : ℚ
  attenuationFactor : ℚ
  operationalFactor : ℚ
deriving DecidableEq

/-- Curve range collected by the UI (src/app.py lines 103-105). -/
structure CurveRange where
  min : ℚ
  max : ℚ
  pointCount : ℕ
deriving DecidableEq

/-- Embedding of the curve sampler, src/app.py lines 107-108:

    d_grid = np.linspace(dist_min, dist_max, num_pts)
    D_grid = dose_at_distance(d_grid, dose_1m, r0, att_factor, fps_factor)

paired into `(distance, dose)` samples as plotted on line 111. -/
def sampleCurve (r : CurveRange) (p : ModelParams) : List (ℚ × ℚ) :=
  (linspace r.min r.max r.pointCount).map
    (fun d => (d, dose_at_distance d p.referenceDose p.referenceDistance
      p.attenuationFactor p.operationalFactor))

/-- Distances of a sampled curve. -/
def sampleDistances (r : CurveRange) (p : ModelParams) : List ℚ :=
  (sampleCurve r p).map Prod.fst


theorem epsFloor_pos : (0:ℚ) < epsFloor := by norm_num [epsFloor]

theorem dose_at_distance_def (d D r0 a o : ℚ) :
    dose_at_distance d D r0 a o = D * (r0 / max d epsFloor) ^ 2 * a * o := rfl

theorem linspace_length (a b : ℚ) (n : ℕ) : (linspace a b n).length = n := by
  unfold linspace
  split <;> simp

theorem linspace_getElem? (a b : ℚ) {n i : ℕ} (hn : 2 ≤ n) (hi : i < n) :
    (linspace a b n)[i]? = some (a + (b - a) * (i : ℚ) / ((n : ℚ) - 1)) := by
  unfold linspace
  rw [if_neg (by omega)]
  rw [List.getElem?_eq_getElem (by simpa using hi)]
  simp [List.getElem_map, List.getElem_range]

theorem linspace_getElem (a b : ℚ) {n i : ℕ} (hn : 2 ≤ n)
    (hi : i < (linspace a b n).length) :
    (linspace a b n)[i] = a + (b - a) * (i : ℚ) / ((n : ℚ) - 1) := by
  have h := linspace_getElem? a b hn (by rwa [linspace_length] at hi)
  rw [List.getElem?_eq_getElem hi] at h
  exact Option.some.inj h

theorem linspace_head? (a b : ℚ) {n : ℕ} (hn : 1 ≤ n) :
    (linspace a b n).head? = some a := by
  rcases Nat.lt_or_ge n 2 with h | h
  · obtain rfl : n = 1 := by omega
    simp [linspace]
  · rw [List.head?_eq_getElem?, linspace_getElem? a b h (by omega)]
    norm_num

theorem linspace_getLast? (a b : ℚ) {n : ℕ} (hn : 2 ≤ n) :
    (linspace a b n).getLast? = some b := by
  rw [List.getLast?_eq_getElem?, linspace_length,
    linspace_getElem? a b hn (by omega)]
  have hne : ((n : ℚ) - 1) ≠ 0 := by
    have h2 : (2:ℚ) ≤ (n:ℚ) := by exact_mod_cast hn
    linarith
  have hcast : ((n - 1 : ℕ) : ℚ) = (n : ℚ) - 1 := by
    have h1 : 1 ≤ n := by omega
    push_cast [h1]
    ring
  rw [hcast, mul_div_assoc, div_self hne, mul_one]
  norm_num

theorem linspace_pairwise_lt (a b : ℚ) (n : ℕ) (hab : a < b) :
    (linspace a b n).Pairwise (· < ·) := by
  unfold linspace
  split
  · rename_i h
    interval_cases n <;> simp
  · rename_i h
    refine List.Pairwise.map _ ?_ (List.pairwise_lt_range n)
    intro i j hij
    have hn1 : (0:ℚ) < (n:ℚ) - 1 := by
      have h2 : (2:ℚ) ≤ (n:ℚ) := by exact_mod_cast Nat.le_of_not_lt (by omega)
      linarith
    have hij' : (i:ℚ) < (j:ℚ) := by exact_mod_cast hij
    have hba : (0:ℚ) < b - a := by linarith
    gcongr

theorem linspace_pairwise_gt (a b : ℚ) (n : ℕ) (hab : b < a) :
    (linspace a b n).Pairwise (fun x y => y < x) := by
  unfold linspace
  split
  · rename_i h
    interval_cases n <;> simp
  · rename_i h
    refine List.Pairwise.map _ ?_ (List.pairwise_lt_range n)
    intro i j hij
    have hn1 : (0:ℚ) < (n:ℚ) - 1 := by
      have h2 : (2:ℚ) ≤ (n:ℚ) := by exact_mod_cast Nat.le_of_not_lt (by omega)
      linarith
    have hij' : (i:ℚ) < (j:ℚ) := by exact_mod_cast hij
    have hba : b - a < 0 := by linarith
    have hmul : (b - a) * (j:ℚ) < (b - a) * (i:ℚ) := by
      exact mul_lt_mul_of_neg_left hij' hba
    have hkey : (b - a) * (j:ℚ) / ((n:ℚ) - 1) < (b - a) * (i:ℚ) / ((n:ℚ) - 1) := by
      gcongr
    linarith

theorem sampleDistances_eq (r : CurveRange) (p : ModelParams) :
    sampleDistances r p = linspace r.min r.max r.pointCount := by
  simp [sampleDistances, sampleCurve, List.map_map, Function.comp_def]


/-- C1: for every distance `d` (scalar or element of a sequence), reference
dose `D`, reference distance `r0 > 0` and factors `a`, `o`, the model clamps
the distance to `max d 1e-6` and returns
`D * (r0 / clampedDistance)^2 * a * o`; omitting the factors defaults both
to `1.0`. -/
theorem C1_dose_formula (d D r0 a o : ℚ) (ds : List ℚ) (hr0 : 0 < r0) :
    dose_at_distance d D r0 a o = D * (r0 / max d (1/1000000)) ^ 2 * a * o ∧
    dose_at_distance d D r0 = dose_at_distance d D r0 1 1 ∧
    dose_at_distance_vec ds D r0 a o =
      ds.map (fun x => D * (r0 / max x (1/1000000)) ^ 2 * a * o) :=
  ⟨rfl, rfl, rfl⟩

/-- Witness for C1 at `d = 2`, `D = 50`, `r0 = 1`, `a = o = 1`, `ds = [3]`. -/
theorem C1_dose_formula_witness :
    (0:ℚ) < 1 ∧
    (dose_at_distance 2 50 1 1 1 = 50 * ((1:ℚ) / max 2 (1/1000000)) ^ 2 * 1 * 1 ∧
     dose_at_distance 2 50 1 = dose_at_distance 2 50 1 1 1 ∧
     dose_at_distance_vec [3] 50 1 1 1 =
       [(3:ℚ)].map (fun x => 50 * ((1:ℚ) / max x (1/1000000)) ^ 2 * 1 * 1)) :=
  ⟨by norm_num, C1_dose_formula 2 50 1 1 1 [3] (by norm_num)⟩

/-- C4: for nonnegative reference dose and factors and positive reference
distance, the dose at any distance (zero and negative included) is
nonnegative, and the clamped denominator is strictly positive, so the
division is well defined (in this exact-arithmetic model every value is
finite). -/
theorem C4_nonneg_finite (d D r0 a o : ℚ) (hD : 0 ≤ D) (hr0 : 0 < r0)
    (ha : 0 ≤ a) (ho : 0 ≤ o) :
    0 ≤ dose_at_distance d D r0 a o ∧ 0 < max d epsFloor := by
  constructor
  · rw [dose_at_distance_def]
    exact mul_nonneg (mul_nonneg (mul_nonneg hD (sq_nonneg _)) ha) ho
  · exact lt_of_lt_of_le epsFloor_pos (le_max_right _ _)

/-- Witness for C4 at `d = -3`, `D = 50`, `r0 = 1`, `a = o = 1`. -/
theorem C4_nonneg_finite_witness :
    (0:ℚ) ≤ 50 ∧ (0:ℚ) < 1 ∧ (0:ℚ) ≤ 1 ∧
    (0 ≤ dose_at_distance (-3) 50 1 1 1 ∧ 0 < max (-3 : ℚ) epsFloor) :=
  ⟨by norm_num, by norm_num, by norm_num,
    C4_nonneg_finite (-3) 50 1 1 1 (by norm_num) (by norm_num) (by norm_num)
      (by norm_num)⟩

/-- C5 as stated is false: two distances below the clamping floor `1e-6`
give equal doses, and with a zero reference dose, zero reference distance,
or a zero factor the dose is constantly zero; in each case `0 < d1 < d2`
yet the dose at `d1` is not greater than the dose at `d2`. -/
theorem C5_counterexample :
    ((0:ℚ) < 1/10000000 ∧ (1/10000000 : ℚ) < 2/10000000 ∧
      ¬ dose_at_distance (2/10000000) 50 1 1 1 <
          dose_at_distance (1/10000000) 50 1 1 1) ∧
    ((0:ℚ) < 1 ∧ (1:ℚ) < 2 ∧
      ¬ dose_at_distance 2 0 1 1 1 < dose_at_distance 1 0 1 1 1) ∧
    (¬ dose_at_distance 2 50 0 1 1 < dose_at_distance 1 50 0 1 1) ∧
    (¬ dose_at_distance 2 50 1 0 1 < dose_at_distance 1 50 1 0 1) ∧
    (¬ dose_at_distance 2 50 1 1 0 < dose_at_distance 1 50 1 1 0) := by
  norm_num [dose_at_distance_def, epsFloor]

/-- C5 amended: for strictly positive reference dose and factors, nonzero
reference distance, and distances at or above the clamping floor `1e-6`,
the dose is strictly decreasing in distance. -/
theorem C5_monotonic_decay (D r0 a o d1 d2 : ℚ) (hD : 0 < D) (hr0 : r0 ≠ 0)
    (ha : 0 < a) (ho : 0 < o) (h1 : epsFloor ≤ d1) (h12 : d1 < d2) :
    dose_at_distance d2 D r0 a o < dose_at_distance d1 D r0 a o := by
  have hd1pos : 0 < d1 := lt_of_lt_of_le epsFloor_pos h1
  have hd2pos : 0 < d2 := hd1pos.trans h12
  rw [dose_at_distance_def, dose_at_distance_def,
    max_eq_left h1, max_eq_left (h1.trans h12.le), div_pow, div_pow]
  have hlt : r0 ^ 2 / d2 ^ 2 < r0 ^ 2 / d1 ^ 2 :=
    div_lt_div_of_pos_left (pow_two_pos_of_ne_zero hr0)
      (pow_pos hd1pos 2) (by gcongr)
  gcongr

/-- Witness for C5 amended at `D = 50`, `r0 = 1`, `a = o = 1`,
`d1 = 1`, `d2 = 2`. -/
theorem C5_monotonic_decay_witness :
    (0:ℚ) < 50 ∧ (1:ℚ) ≠ 0 ∧ (0:ℚ) < 1 ∧ epsFloor ≤ (1:ℚ) ∧ (1:ℚ) < 2 ∧
    dose_at_distance 2 50 1 1 1 < dose_at_distance 1 50 1 1 1 :=
  ⟨by norm_num, by norm_num, by norm_num, by norm_num [epsFloor], by norm_num,
    C5_monotonic_decay 50 1 1 1 1 2 (by norm_num) (by norm_num) (by norm_num)
      (by norm_num) (by norm_num [epsFloor]) (by norm_num)⟩


/-- C6 as stated is false: for distances below the clamping floor the ratio
reflects the clamped (equal) distances, not `(d2/d1)^2`; and with a zero
reference dose or zero reference distance both doses are `0`, so the ratio
is not `(d2/d1)^2` either. -/
theorem C6_counterexample :
    ((0:ℚ) < 1/10000000 ∧ (0:ℚ) < 2/10000000 ∧
      dose_at_distance (1/10000000) 50 1 1 1 /
          dose_at_distance (2/10000000) 50 1 1 1 ≠
        ((2/10000000 : ℚ) / (1/10000000)) ^ 2) ∧
    (dose_at_distance 1 0 1 1 1 / dose_at_distance 2 0 1 1 1 ≠
      ((2:ℚ) / 1) ^ 2) ∧
    (dose_at_distance 1 50 0 1 1 / dose_at_distance 2 50 0 1 1 ≠
      ((2:ℚ) / 1) ^ 2) := by
  norm_num [dose_at_distance_def, epsFloor]

/-- C6 amended: for distances at or above the clamping floor `1e-6` and
nonzero reference dose, reference distance, attenuation and operational
factors, the dose ratio obeys the inverse-square law
`dose(d1)/dose(d2) = (d2/d1)^2` (exactly, in this rational model). -/
theorem C6_inverse_square (D r0 a o d1 d2 : ℚ) (hD : D ≠ 0) (hr0 : r0 ≠ 0)
    (ha : a ≠ 0) (ho : o ≠ 0) (h1 : epsFloor ≤ d1) (h2 : epsFloor ≤ d2) :
    dose_at_distance d1 D r0 a o / dose_at_distance d2 D r0 a o =
      (d2 / d1) ^ 2 := by
  have hd1 : d1 ≠ 0 := ne_of_gt (lt_of_lt_of_le epsFloor_pos h1)
  have hd2 : d2 ≠ 0 := ne_of_gt (lt_of_lt_of_le epsFloor_pos h2)
  rw [dose_at_distance_def, dose_at_distance_def, max_eq_left h1,
    max_eq_left h2]
  field_simp
  ring

/-- Witness for C6 amended at `D = 50`, `r0 = 1`, `a = o = 1`, `d1 = 1`,
`d2 = 2`. -/
theorem C6_inverse_square_witness :
    (50:ℚ) ≠ 0 ∧ (1:ℚ) ≠ 0 ∧ epsFloor ≤ (1:ℚ) ∧ epsFloor ≤ (2:ℚ) ∧
    dose_at_distance 1 50 1 1 1 / dose_at_distance 2 50 1 1 1 =
      ((2:ℚ) / 1) ^ 2 :=
  ⟨by norm_num, by norm_num, by norm_num [epsFloor], by norm_num [epsFloor],
    C6_inverse_square 50 1 1 1 1 2 (by norm_num) (by norm_num) (by norm_num)
      (by norm_num) (by norm_num [epsFloor]) (by norm_num [epsFloor])⟩

/-- C7 as stated is false: a reference distance below the clamping floor is
itself clamped, so the reference-point identity fails there: with
`r0 = 1e-7` and `D = 50` the model returns `1/2`, not `50`. -/
theorem C7_counterexample :
    (0:ℚ) < 1/10000000 ∧ (0:ℚ) ≤ 50 ∧
    dose_at_distance (1/10000000) 50 (1/10000000) 1 1 = 1/2 ∧
    dose_at_distance (1/10000000) 50 (1/10000000) 1 1 ≠ 50 := by
  norm_num [dose_at_distance_def, epsFloor]

/-- C7 amended: for every `D ≥ 0` and reference distance at or above the
clamping floor `1e-6`, evaluating at the reference distance with both
factors `1.0` returns exactly `D`. -/
theorem C7_reference_identity (D r0 : ℚ) (hD : 0 ≤ D) (hr0 : epsFloor ≤ r0) :
    dose_at_distance r0 D r0 1 1 = D := by
  have hne : r0 ≠ 0 := ne_of_gt (lt_of_lt_of_le epsFloor_pos hr0)
  rw [dose_at_distance_def, max_eq_left hr0, div_self hne]
  ring

/-- Witness for C7 amended at `D = 50`, `r0 = 1`. -/
theorem C7_reference_identity_witness :
    (0:ℚ) ≤ 50 ∧ epsFloor ≤ (1:ℚ) ∧ dose_at_distance 1 50 1 1 1 = 50 :=
  ⟨by norm_num, by norm_num [epsFloor],
    C7_reference_identity 50 1 (by norm_num) (by norm_num [epsFloor])⟩

/-- C8: the three concrete evaluations from the spec:
`dose(2, 50, 1, 1, 1) = 12.5`, `dose(1, 50, 1, 0.5, 1) = 25`,
`dose(1, 50, 1, 1, 1) = 50`. -/
theorem C8_concrete_scenarios :
    dose_at_distance 2 50 1 1 1 = 25/2 ∧
    dose_at_distance 1 50 1 (1/2) 1 = 25 ∧
    dose_at_distance 1 50 1 1 1 = 50 := by
  norm_num [dose_at_distance_def, epsFloor]

/-- C10: the model is linear in the reference dose and depends on the two
factors only through their product. -/
theorem C10_linearity (d D r0 a o c : ℚ) (hr0 : 0 < r0) :
    dose_at_distance d (c * D) r0 a o = c * dose_at_distance d D r0 a o ∧
    dose_at_distance d D r0 a o = dose_at_distance d D r0 (a * o) 1 ∧
    dose_at_distance d D r0 a o = a * o * dose_at_distance d D r0 1 1 :=
  ⟨by simp only [dose_at_distance_def]; ring,
   by simp only [dose_at_distance_def]; ring,
   by simp only [dose_at_distance_def]; ring⟩

/-- Witness for C10 at `d = 2`, `D = 50`, `r0 = 1`, `a = 3`, `o = 5`,
`c = 7`. -/
theorem C10_linearity_witness :
    (0:ℚ) < 1 ∧
    (dose_at_distance 2 (7 * 50) 1 3 5 = 7 * dose_at_distance 2 50 1 3 5 ∧
     dose_at_distance 2 50 1 3 5 = dose_at_distance 2 50 1 (3 * 5) 1 ∧
     dose_at_distance 2 50 1 3 5 = 3 * 5 * dose_at_distance 2 50 1 1 1) :=
  ⟨by norm_num, C10_linearity 2 50 1 3 5 7 (by norm_num)⟩


/-- C2 as stated is false at `pointCount = 1`: `np.linspace(min, max, 1)`
returns the singleton `[min]`, so the last sample's distance is `min`,
not `max` (here `1/2 ≠ 5`). -/
theorem C2_counterexample :
    (0:ℚ) < 1/2 ∧ (1/2:ℚ) < 5 ∧ 0 < 1 ∧
    sampleCurve ⟨1/2, 5, 1⟩ ⟨50, 1, 1, 1⟩ = [(1/2, 200)] ∧ (1/2 : ℚ) ≠ 5 := by
  refine ⟨by norm_num, by norm_num, by norm_num, ?_, by norm_num⟩
  norm_num [sampleCurve, linspace, dose_at_distance_def, epsFloor,
    List.range_succ]

/-- C2 amended (`pointCount ≥ 2`; for `pointCount = 1` the single sample
sits at `range.min`): the sampler returns exactly `pointCount` samples,
first distance `= range.min`, last `= range.max`, distances strictly
increasing and evenly spaced with step `(max - min)/(pointCount - 1)`, and
every sample's dose is the dose model applied to its distance with the
given parameters. -/
theorem C2_sampler_spec (r : CurveRange) (p : ModelParams) (hmin : 0 < r.min)
    (hlt : r.min < r.max) (hn : 2 ≤ r.pointCount) :
    (sampleCurve r p).length = r.pointCount ∧
    (sampleCurve r p).head? = some (r.min,
      dose_at_distance r.min p.referenceDose p.referenceDistance
        p.attenuationFactor p.operationalFactor) ∧
    (sampleCurve r p).getLast? = some (r.max,
      dose_at_distance r.max p.referenceDose p.referenceDistance
        p.attenuationFactor p.operationalFactor) ∧
    List.Pairwise (fun s t : ℚ × ℚ => s.1 < t.1) (sampleCurve r p) ∧
    (∀ i : ℕ, ∀ h : i + 1 < (sampleDistances r p).length,
      (sampleDistances r p)[i + 1] - (sampleDistances r p)[i] =
        (r.max - r.min) / ((r.pointCount : ℚ) - 1)) ∧
    ∀ s ∈ sampleCurve r p,
      s.2 = dose_at_distance s.1 p.referenceDose p.referenceDistance
        p.attenuationFactor p.operationalFactor := by
  refine ⟨?_, ?_, ?_, ?_, ?_, ?_⟩
  · simp [sampleCurve, linspace_length]
  · rw [sampleCurve, List.head?_map, linspace_head? _ _ (by omega)]
    rfl
  · rw [sampleCurve, List.getLast?_map, linspace_getLast? _ _ hn]
    rfl
  · exact List.Pairwise.map _ (fun x y h => h)
      (linspace_pairwise_lt _ _ _ hlt)
  · intro i h
    have hlen : i + 1 < (linspace r.min r.max r.pointCount).length := by
      rwa [sampleDistances_eq] at h
    have hlen' : i < (linspace r.min r.max r.pointCount).length := by omega
    have hne : ((r.pointCount : ℚ) - 1) ≠ 0 := by
      have h2 : (2:ℚ) ≤ (r.pointCount:ℚ) := by exact_mod_cast hn
      linarith
    simp only [sampleDistances_eq]
    rw [linspace_getElem _ _ hn hlen, linspace_getElem _ _ hn hlen']
    push_cast
    field_simp
    ring
  · intro s hs
    rw [sampleCurve, List.mem_map] at hs
    obtain ⟨x, _, rfl⟩ := hs
    rfl

/-- Witness for C2 amended at range `{min := 1/2, max := 5,
pointCount := 3}` and parameters `{50, 1, 1, 1}`. -/
theorem C2_sampler_spec_witness :
    (0:ℚ) < 1/2 ∧ (1/2:ℚ) < 5 ∧ 2 ≤ 3 ∧
    ((sampleCurve ⟨1/2, 5, 3⟩ ⟨50, 1, 1, 1⟩).length = 3 ∧
     (sampleCurve ⟨1/2, 5, 3⟩ ⟨50, 1, 1, 1⟩).head? =
       some (1/2, dose_at_distance (1/2) 50 1 1 1) ∧
     (sampleCurve ⟨1/2, 5, 3⟩ ⟨50, 1, 1, 1⟩).getLast? =
       some (5, dose_at_distance 5 50 1 1 1) ∧
     List.Pairwise (fun s t : ℚ × ℚ => s.1 < t.1)
       (sampleCurve ⟨1/2, 5, 3⟩ ⟨50, 1, 1, 1⟩) ∧
     (∀ i : ℕ,
       ∀ h : i + 1 < (sampleDistances ⟨1/2, 5, 3⟩ ⟨50, 1, 1, 1⟩).length,
       (sampleDistances ⟨1/2, 5, 3⟩ ⟨50, 1, 1, 1⟩)[i + 1] -
           (sampleDistances ⟨1/2, 5, 3⟩ ⟨50, 1, 1, 1⟩)[i] =
         ((5:ℚ) - 1/2) / ((3 : ℚ) - 1)) ∧
     ∀ s ∈ sampleCurve ⟨1/2, 5, 3⟩ ⟨50, 1, 1, 1⟩,
       s.2 = dose_at_distance s.1 50 1 1 1) :=
  ⟨by norm_num, by norm_num, by norm_num,
    C2_sampler_spec ⟨1/2, 5, 3⟩ ⟨50, 1, 1, 1⟩ (by norm_num) (by norm_num)
      (by norm_num)⟩

/-- C3 as stated is false: with the invalid range `{min := 5, max := 1/2}`
(`max ≤ min`) the sampler raises no error at all; it returns an ordinary
list of three samples running downward from `min` to `max`. -/
theorem C3_counterexample :
    (1/2 : ℚ) ≤ 5 ∧
    sampleCurve ⟨5, 1/2, 3⟩ ⟨50, 1, 1, 1⟩ =
      [(5, 2), (11/4, 800/121), (1/2, 200)] := by
  refine ⟨by norm_num, ?_⟩
  norm_num [sampleCurve, linspace, dose_at_distance_def, epsFloor,
    List.range_succ]

/-- C3 amended: the sampler performs no range validation (the UI caller
enforces the bounds): with `max < min` and `pointCount ≥ 2` it totally
computes `pointCount` samples whose distances run strictly downward from
`min` to `max` — the bounds are neither swapped nor clamped and no error
is raised — and a `pointCount` of `0` yields the empty list, again without
error. -/
theorem C3_no_validation (r : CurveRange) (p : ModelParams)
    (hgt : r.max < r.min) (hn : 2 ≤ r.pointCount) :
    (sampleCurve r p).length = r.pointCount ∧
    (sampleCurve r p).head? = some (r.min,
      dose_at_distance r.min p.referenceDose p.referenceDistance
        p.attenuationFactor p.operationalFactor) ∧
    (sampleCurve r p).getLast? = some (r.max,
      dose_at_distance r.max p.referenceDose p.referenceDistance
        p.attenuationFactor p.operationalFactor) ∧
    List.Pairwise (fun s t : ℚ × ℚ => t.1 < s.1) (sampleCurve r p) ∧
    sampleCurve ⟨r.min, r.max, 0⟩ p = [] := by
  refine ⟨?_, ?_, ?_, ?_, rfl⟩
  · simp [sampleCurve, linspace_length]
  · rw [sampleCurve, List.head?_map, linspace_head? _ _ (by omega)]
    rfl
  · rw [sampleCurve, List.getLast?_map, linspace_getLast? _ _ hn]
    rfl
  · exact List.Pairwise.map _ (fun x y h => h)
      (linspace_pairwise_gt _ _ _ hgt)

/-- Witness for C3 amended at range `{min := 5, max := 1/2,
pointCount := 3}` and parameters `{50, 1, 1, 1}`. -/
theorem C3_no_validation_witness :
    (1/2:ℚ) < 5 ∧ 2 ≤ 3 ∧
    ((sampleCurve ⟨5, 1/2, 3⟩ ⟨50, 1, 1, 1⟩).length = 3 ∧
     (sampleCurve ⟨5, 1/2, 3⟩ ⟨50, 1, 1, 1⟩).head? =
       some (5, dose_at_distance 5 50 1 1 1) ∧
     (sampleCurve ⟨5, 1/2, 3⟩ ⟨50, 1, 1, 1⟩).getLast? =
       some (1/2, dose_at_distance (1/2) 50 1 1 1) ∧
     List.Pairwise (fun s t : ℚ × ℚ => t.1 < s.1)
       (sampleCurve ⟨5, 1/2, 3⟩ ⟨50, 1, 1, 1⟩) ∧
     sampleCurve ⟨5, 1/2, 0⟩ ⟨50, 1, 1, 1⟩ = []) :=
  ⟨by norm_num, by norm_num,
    C3_no_validation ⟨5, 1/2, 3⟩ ⟨50, 1, 1, 1⟩ (by norm_num) (by norm_num)⟩

/-- C9: the sampler is deterministic — it is a pure function of the range
and parameters, so identical inputs yield identical sample sequences. -/
theorem C9_deterministic (r1 r2 : CurveRange) (p1 p2 : ModelParams)
    (hr : r1 = r2) (hp : p1 = p2) : sampleCurve r1 p1 = sampleCurve r2 p2 := by
  rw [hr, hp]

/-- Witness for C9 at range `{min := 1/2, max := 5, pointCount := 3}` and
parameters `{50, 1, 1, 1}`. -/
theorem C9_deterministic_witness :
    (⟨1/2, 5, 3⟩ : CurveRange) = ⟨1/2, 5, 3⟩ ∧
    (⟨50, 1, 1, 1⟩ : ModelParams) = ⟨50, 1, 1, 1⟩ ∧
    sampleCurve ⟨1/2, 5, 3⟩ ⟨50, 1, 1, 1⟩ =
      sampleCurve ⟨1/2, 5, 3⟩ ⟨50, 1, 1, 1⟩ :=
  ⟨rfl, rfl, C9_deterministic _ _ _ _ rfl rfl⟩

end DoseApp
